import Mathlib

/-!
Shallow embedding of the `polling` mio/epoll backend (src/mio.rs, src/timerfd.rs)
and proofs checking the natural-language specification against it.

The embedding models:
* `std::time::Duration` as seconds plus sub-second nanoseconds (both `Nat`);
* C `timespec`/`itimerspec` values as pairs of `Int`;
* `TimerFd::set_timeout` as the pure function building the `itimerspec`
  handed to `timerfd_settime`;
* mio's `Interest`, the `From<Event> for Interest` impl, and `Events::iter`;
* the timeout-preparation logic of `Poller::wait`, the `?`-propagation
  structure of `Poller::new` and `Poller::wait` (with syscall outcomes as
  oracle parameters), and the destructors as action traces.
-/

namespace Polling

/-! ## Durations (std::time::Duration) -/

/-- `std::time::Duration`: whole seconds (`u64`) and sub-second nanoseconds
(`u32`, below 10^9). Modelled on `Nat`; the invariants are stated as
hypotheses where a theorem needs them. -/
structure Duration where
  secs : Nat
  nanos : Nat
deriving DecidableEq, Repr

/-- `Duration::ZERO`. -/
def Duration.ZERO : Duration := ⟨0, 0⟩

/-- `Duration::as_secs`. -/
def Duration.asSecs (t : Duration) : Nat := t.secs

/-- `Duration::subsec_nanos`. -/
def Duration.subsecNanos (t : Duration) : Nat := t.nanos

/-- `Duration::as_millis`: whole milliseconds, truncating the sub-millisecond
remainder (the `u128` result fits in `Nat`). -/
def Duration.asMillis (t : Duration) : Nat := t.secs * 1000 + t.nanos / 1000000

/-- `Duration::from_millis`. -/
def Duration.fromMillis (ms : Nat) : Duration := ⟨ms / 1000, ms % 1000 * 1000000⟩

/-- `u64::MAX`. -/
def U64_MAX : Nat := 2 ^ 64 - 1

/-! ## timerfd.rs -/

/-- C `timespec`: seconds (`time_t`, signed 64-bit) and nanoseconds. -/
structure Timespec where
  tv_sec : Int
  tv_nsec : Int
deriving DecidableEq, Repr

/-- The `TS_ZERO` constant of src/timerfd.rs: a `timespec` equal to zero. -/
def TS_ZERO : Timespec := ⟨0, 0⟩

/-- C `itimerspec`: repeat interval and initial expiration. -/
structure Itimerspec where
  it_interval : Timespec
  it_value : Timespec
deriving DecidableEq, Repr

/-- The `as libc::time_t` cast in `set_timeout`: a wrapping cast from `u64`
to the signed 64-bit `time_t`. -/
def toTimeT (n : Nat) : Int :=
  if n % 2 ^ 64 < 2 ^ 63 then Int.ofNat (n % 2 ^ 64)
  else Int.ofNat (n % 2 ^ 64) - 2 ^ 64

/-- `TimerFd::set_timeout` (src/timerfd.rs lines 31-53), as the pure function
computing the `itimerspec` written by `timerfd_settime`: zero interval, and
an `it_value` that is `TS_ZERO` for `None` and
`{ tv_sec: t.as_secs() as time_t, tv_nsec: t.subsec_nanos() }` for `Some(t)`. -/
def setTimeoutSpec (timeout : Option Duration) : Itimerspec :=
  { it_interval := TS_ZERO
    it_value :=
      match timeout with
      | none => TS_ZERO
      | some t => ⟨toTimeT t.asSecs, Int.ofNat t.subsecNanos⟩ }

/-- Modelled from the spec: `timerfd_settime` semantics, as the spec itself
fixes them — `None` writes a zero `it_value` and "disarms (never fires)", so
an `itimerspec` arms the timer exactly when its `it_value` is nonzero. -/
def Itimerspec.armed (s : Itimerspec) : Bool :=
  if s.it_value = TS_ZERO then false else true

/-! ## mio.rs: Event, Interest, the From impl -/

/-- The crate's portable `Event`: opaque key plus two readiness flags. -/
structure Event where
  key : Nat
  readable : Bool
  writable : Bool
deriving DecidableEq, Repr

/-- mio's `Interest`, modelled as the pair of its two epoll-relevant bits. -/
structure Interest where
  read : Bool
  write : Bool
deriving DecidableEq, Repr

/-- `Interest::READABLE`. -/
def Interest.READABLE : Interest := ⟨true, false⟩

/-- `Interest::WRITABLE`. -/
def Interest.WRITABLE : Interest := ⟨false, true⟩

/-- `Interest::add`: union of interest bits. -/
def Interest.add (a b : Interest) : Interest := ⟨a.read || b.read, a.write || b.write⟩

/-- The `From<Event> for Interest` impl (src/mio.rs lines 24-36). -/
def interestOfEvent (event : Event) : Interest :=
  if event.writable then
    if event.readable then Interest.add Interest.READABLE Interest.WRITABLE
    else Interest.WRITABLE
  else
    Interest.READABLE

/-- Modelled from the spec: `NOTIFY_KEY`, the one reserved sentinel key owned
by the system for timer and waker notifications. It is defined in the crate
root (not under src/); the crate reserves the maximal key value, and no claim
depends on the concrete number. -/
def NOTIFY_KEY : Nat := 2 ^ 64 - 1

/-- Modelled from the spec: `Event::none(key)` from the crate root (not under
src/) builds the `Event` carrying `key` with both readiness flags cleared, as
`Poller::new` uses for the timer fd. -/
def Event.none (key : Nat) : Event := ⟨key, false, false⟩

/-! ## mio.rs: Events::iter (the event translator) -/

/-- A native mio event record, reduced to the token and the readiness flags
that `Events::iter` consults. -/
structure MioEvent where
  token : Nat
  is_readable : Bool
  is_writable : Bool
  is_error : Bool
  is_read_closed : Bool
  is_write_closed : Bool
  is_priority : Bool
deriving DecidableEq, Repr

/-- The per-record translation of `Events::iter` (src/mio.rs lines 156-162). -/
def eventOfMio (ev : MioEvent) : Event :=
  { key := ev.token
    readable := ev.is_readable || ev.is_read_closed || ev.is_error || ev.is_priority
    writable := ev.is_writable || ev.is_write_closed || ev.is_error }

/-- `Events::iter` over a populated buffer: every record is translated, none
is filtered out. -/
def eventsIter (records : List MioEvent) : List Event := records.map eventOfMio

/-! ## mio.rs: Poller::wait timeout preparation -/

/-- The native timeout handed to `mio::Poll::poll` by `Poller::wait`
(src/mio.rs lines 100-115), as a function of whether a timerfd exists and of
the caller's timeout. Without a timerfd a `Some` timeout is rounded via
`as_millis().try_into().unwrap_or(u64::MAX).saturating_add(1)`; with a
timerfd a nonzero `Some` timeout is replaced by `None`. -/
def waitNativeTimeout (hasTimer : Bool) (timeout : Option Duration) : Option Duration :=
  if !hasTimer then
    match timeout with
    | none => none
    | some t =>
        some (Duration.fromMillis (Nat.min (Nat.min t.asMillis U64_MAX + 1) U64_MAX))
  else
    match timeout with
    | none => none
    | some t => if t ≠ Duration.ZERO then none else some t

/-- One observable step of `Poller::wait` before/at the native poll. -/
inductive WaitStep where
  | armTimer (spec : Itimerspec)
  | modifyFd (key : Nat) (readable writable : Bool)
  | nativePoll (timeout : Option Duration)
deriving DecidableEq, Repr

/-- The ordered trace of `Poller::wait` (src/mio.rs lines 82-117) up to and
including the native poll call: when a timerfd exists, it is armed with
`set_timeout(timeout)` and re-registered for readability under `NOTIFY_KEY`
before the poll; the poll receives `waitNativeTimeout`. -/
def waitTrace (hasTimer : Bool) (timeout : Option Duration) : List WaitStep :=
  (if hasTimer then
    [WaitStep.armTimer (setTimeoutSpec timeout),
     WaitStep.modifyFd NOTIFY_KEY true false]
  else []) ++ [WaitStep.nativePoll (waitNativeTimeout hasTimer timeout)]

/-! ## Error propagation: Poller::wait and Poller::new -/

/-- An OS-level error: the recoverable interruption (`EINTR`) or any other
errno. -/
inductive IOErr where
  | eintr
  | other (code : Nat)
deriving DecidableEq, Repr

/-- `true` exactly on the `error` constructor. -/
def isErr {α : Type} (x : Except IOErr α) : Bool :=
  match x with
  | Except.error _ => true
  | Except.ok _ => false

/-- The `?`-propagation structure of `Poller::wait` (src/mio.rs lines 82-122).
The syscall outcomes are oracle parameters: `setRes` for
`timer_fd.set_timeout(..)`, `modRes` for `self.modify(..)` (both consulted
only when a timerfd exists), and `pollRes` for `self.poll.lock().unwrap()
.poll(..)`, whose `Ok` value is the number of ready records. Each failure is
returned to the caller via `?`; there is no retry of any kind. -/
def waitRun (hasTimer : Bool) (setRes modRes : Except IOErr Unit)
    (pollRes : Except IOErr Nat) : Except IOErr Nat :=
  match (if hasTimer then setRes else Except.ok ()) with
  | Except.error e => Except.error e
  | Except.ok _ =>
    match (if hasTimer then modRes else Except.ok ()) with
    | Except.error e => Except.error e
    | Except.ok _ => pollRes

/-- The event `Poller::new` registers the timer fd with (src/mio.rs line 54). -/
def newTimerEvent : Event := Event.none NOTIFY_KEY

/-- The `?`-propagation structure of `Poller::new` (src/mio.rs lines 40-59),
with syscall outcomes as oracle parameters: `pollNew` for `Poll::new()`,
`wakerNew` for `Waker::new(..)`, `regClone` for `registry().try_clone()`,
`timerNew` for `TimerFd::new()` (its error is discarded via `.ok()`), and
`addTimer` for `poller.add(timer_fd, Event::none(NOTIFY_KEY))`, consulted
only when the timerfd exists. On success, returns whether the poller holds a
timerfd. -/
def newRun (pollNew wakerNew regClone timerNew addTimer : Except IOErr Unit) :
    Except IOErr Bool :=
  match pollNew with
  | Except.error e => Except.error e
  | Except.ok _ =>
    match wakerNew with
    | Except.error e => Except.error e
    | Except.ok _ =>
      match regClone with
      | Except.error e => Except.error e
      | Except.ok _ =>
        match timerNew with
        | Except.error _ => Except.ok false
        | Except.ok _ =>
          match addTimer with
          | Except.error e => Except.error e
          | Except.ok _ => Except.ok true

/-! ## Destructors -/

/-- An action on a file descriptor performed during teardown. -/
inductive FdAction where
  | deregister (fd : Int)
  | close (fd : Int)
deriving DecidableEq, BEq, Repr

/-- `true` exactly on `close`. -/
def FdAction.isClose (a : FdAction) : Bool :=
  match a with
  | FdAction.close _ => true
  | FdAction.deregister _ => false

/-- `impl Drop for Poller` (src/mio.rs lines 131-137): if a timerfd exists,
deregister it with `let _ = self.delete(..)`, discarding the result
`delRes`; the drop itself always completes. Returns the actions taken and
the (always successful) outcome. -/
def pollerDrop (timerFd : Option Int) (delRes : Except IOErr Unit) :
    List FdAction × Except IOErr Unit :=
  match timerFd with
  | none => ([], Except.ok ())
  | some fd =>
    match delRes with
    | Except.error _ => ([FdAction.deregister fd], Except.ok ())
    | Except.ok _ => ([FdAction.deregister fd], Except.ok ())

/-- `impl Drop for TimerFd` (src/timerfd.rs lines 62-66): close the owned fd. -/
def timerFdDrop (fd : Int) : List FdAction := [FdAction.close fd]

end Polling

namespace Polling

/-! ## Claim theorems -/

/-- C1 counterexample: `set_timeout(Some(Duration::ZERO))` writes exactly the
same `itimerspec` as `set_timeout(None)` — a zero `it_value`, which disarms
the timer — so `Some(ZERO)` does not arm the timer to fire immediately; and
at the reachable `d` of `2^63` whole seconds the `as time_t` cast wraps,
writing the negative `tv_sec = -2^63` rather than the seconds of `d`, so
that `Some(d)` does not arm the timer to fire after `d` either. -/
theorem C1_counterexample :
    setTimeoutSpec (some Duration.ZERO) = setTimeoutSpec none ∧
    Itimerspec.armed (setTimeoutSpec (some Duration.ZERO)) = false ∧
    (setTimeoutSpec (some (Duration.mk (2 ^ 63) 0))).it_value.tv_sec = -(2 ^ 63) ∧
    (setTimeoutSpec (some (Duration.mk (2 ^ 63) 0))).it_value.tv_sec ≠
      Int.ofNat (2 ^ 63) := by
  decide

/-- C1 (amended): the `itimerspec` written by `set_timeout` always has a zero
repeat interval; `None` and `Some(ZERO)` both write a zero `it_value`, which
disarms the timer; and for `Some(d)` with `d ≠ ZERO` the written `tv_nsec` is
the sub-second nanoseconds of `d` while `tv_sec` is the wrapping signed
64-bit cast of `d`'s whole seconds — equal to those seconds, arming the timer
to fire after `d`, exactly when they are below `2^63`, and negative (the
seconds minus `2^64`, not a fire-after-`d` deadline) otherwise. -/
theorem C1_set_timeout_one_shot (timeout : Option Duration) (d : Duration)
    (hz : d ≠ Duration.ZERO) (h64 : d.secs < 2 ^ 64) :
    (setTimeoutSpec timeout).it_interval = TS_ZERO ∧
    (setTimeoutSpec none).it_value = TS_ZERO ∧
    (setTimeoutSpec (some Duration.ZERO)).it_value = TS_ZERO ∧
    (setTimeoutSpec (some d)).it_value.tv_nsec = Int.ofNat d.nanos ∧
    (d.secs < 2 ^ 63 →
      (setTimeoutSpec (some d)).it_value =
        Timespec.mk (Int.ofNat d.secs) (Int.ofNat d.nanos) ∧
      Itimerspec.armed (setTimeoutSpec (some d)) = true) ∧
    (2 ^ 63 ≤ d.secs →
      (setTimeoutSpec (some d)).it_value.tv_sec = Int.ofNat d.secs - 2 ^ 64 ∧
      (setTimeoutSpec (some d)).it_value.tv_sec < 0) := by
  have hmod : d.secs % 2 ^ 64 = d.secs := Nat.mod_eq_of_lt h64
  refine ⟨by cases timeout <;> rfl, rfl, by decide, rfl, ?_, ?_⟩
  · intro hs
    have ht : toTimeT d.secs = Int.ofNat d.secs := by
      unfold toTimeT
      rw [hmod, if_pos hs]
    have hval : (setTimeoutSpec (some d)).it_value =
        Timespec.mk (Int.ofNat d.secs) (Int.ofNat d.nanos) := by
      show Timespec.mk (toTimeT d.secs) (Int.ofNat d.nanos) = _
      rw [ht]
    refine ⟨hval, ?_⟩
    have hne : ¬(d.secs = 0 ∧ d.nanos = 0) := by
      rintro ⟨h1, h2⟩
      exact hz (by cases d; simp_all [Duration.ZERO])
    have hcon : ¬(Timespec.mk (Int.ofNat d.secs) (Int.ofNat d.nanos) = TS_ZERO) := by
      intro hc
      simp only [TS_ZERO, Timespec.mk.injEq, Int.ofNat_eq_natCast, Nat.cast_eq_zero] at hc
      exact hne hc
    unfold Itimerspec.armed
    rw [hval, if_neg hcon]
  · intro hs
    have ht : toTimeT d.secs = Int.ofNat d.secs - 2 ^ 64 := by
      unfold toTimeT
      rw [hmod, if_neg (not_lt.mpr hs)]
    have hsec : (setTimeoutSpec (some d)).it_value.tv_sec = toTimeT d.secs := rfl
    refine ⟨by rw [hsec, ht], ?_⟩
    rw [hsec, ht, Int.ofNat_eq_natCast]
    omega

/-- C1 witness: at `d = 1s + 500ns` the amended behavior is concrete — the
below-`2^63` region applies and the timer is armed to fire after `d`. -/
theorem C1_set_timeout_one_shot_witness :
    (setTimeoutSpec (some (Duration.mk 1 500))).it_interval = TS_ZERO ∧
    (setTimeoutSpec none).it_value = TS_ZERO ∧
    (setTimeoutSpec (some Duration.ZERO)).it_value = TS_ZERO ∧
    (setTimeoutSpec (some (Duration.mk 1 500))).it_value =
      Timespec.mk (Int.ofNat 1) (Int.ofNat 500) ∧
    Itimerspec.armed (setTimeoutSpec (some (Duration.mk 1 500))) = true := by
  have h := C1_set_timeout_one_shot (some (Duration.mk 1 500)) (Duration.mk 1 500)
    (by decide) (by norm_num)
  obtain ⟨h1, h2, h3, _, h5, _⟩ := h
  exact ⟨h1, h2, h3, (h5 (by norm_num)).1, (h5 (by norm_num)).2⟩

/-- C2 counterexample: with no timerfd, `Some(ZERO)` is not passed unchanged
to the native poll — it becomes one millisecond — and a duration that is
already a whole number of milliseconds (5ms) becomes 6ms. -/
theorem C2_counterexample :
    waitNativeTimeout false (some Duration.ZERO) = some (Duration.fromMillis 1) ∧
    waitNativeTimeout false (some Duration.ZERO) ≠ some Duration.ZERO ∧
    waitNativeTimeout false (some (Duration.mk 0 5000000)) ≠
      some (Duration.mk 0 5000000) := by
  decide

/-- C2 (amended): with no timerfd, `Some(d)` is converted by truncating `d`
to whole milliseconds and then unconditionally adding one millisecond with
saturation — so every duration, whole-millisecond ones and `ZERO` included,
is increased; a millisecond count at or above `u64::MAX` saturates to
`u64::MAX` milliseconds rather than wrapping. -/
theorem C2_wait_timeout_rounding (d : Duration) :
    (d.asMillis < U64_MAX →
      waitNativeTimeout false (some d) =
        some (Duration.fromMillis (d.asMillis + 1))) ∧
    (U64_MAX ≤ d.asMillis →
      waitNativeTimeout false (some d) = some (Duration.fromMillis U64_MAX)) := by
  constructor
  · intro h
    have h1 : Nat.min d.asMillis U64_MAX = d.asMillis := Nat.min_eq_left (le_of_lt h)
    have h2 : Nat.min (d.asMillis + 1) U64_MAX = d.asMillis + 1 := Nat.min_eq_left h
    simp [waitNativeTimeout, h1, h2]
  · intro h
    have h1 : Nat.min d.asMillis U64_MAX = U64_MAX := Nat.min_eq_right h
    have h2 : Nat.min (U64_MAX + 1) U64_MAX = U64_MAX := Nat.min_eq_right (Nat.le_succ _)
    simp [waitNativeTimeout, h1, h2]

/-- C2 witness: a 5ms timeout is handed to the native poll as 6ms. -/
theorem C2_wait_timeout_rounding_witness :
    waitNativeTimeout false (some (Duration.mk 0 5000000)) =
      some (Duration.fromMillis 6) := by
  have h := (C2_wait_timeout_rounding (Duration.mk 0 5000000)).1 (by decide)
  simpa [Duration.asMillis] using h

/-- C3 counterexample: with a timerfd present and `timeout = Some(ZERO)`,
`Poller::wait` does not invoke the native poll with no native timeout — the
zero timeout is passed through to the native call. -/
theorem C3_counterexample :
    waitNativeTimeout true (some Duration.ZERO) = some Duration.ZERO ∧
    waitNativeTimeout true (some Duration.ZERO) ≠ none := by
  decide

/-- C3 (amended): with a timerfd present, `Poller::wait` first writes the
timeout's `itimerspec` to the timer, then ensures read-interest in the timer
fd under the reserved key, and then invokes the native poll with no native
timeout — except that `Some(ZERO)` is passed through as a zero native
timeout (a non-blocking poll). -/
theorem C3_wait_with_timer (timeout : Option Duration) :
    waitTrace true timeout =
      [WaitStep.armTimer (setTimeoutSpec timeout),
       WaitStep.modifyFd NOTIFY_KEY true false,
       WaitStep.nativePoll
         (if timeout = some Duration.ZERO then some Duration.ZERO else none)] := by
  cases timeout with
  | none => simp [waitTrace, waitNativeTimeout]
  | some t =>
    by_cases h : t = Duration.ZERO <;> simp [waitTrace, waitNativeTimeout, h]

/-- C4: the translated `Event` of a native record has `readable = true`
exactly when the record indicates readability, error, priority data, or a
peer-closed read side, and `writable = true` exactly when it indicates
writability, error, or a peer-closed write side; in particular error
combined with writable yields `writable = true`, and error combined with
readable yields `readable = true`. -/
theorem C4_event_translation (ev : MioEvent) :
    ((eventOfMio ev).readable = true ↔
      (ev.is_readable = true ∨ ev.is_error = true ∨ ev.is_priority = true ∨
        ev.is_read_closed = true)) ∧
    ((eventOfMio ev).writable = true ↔
      (ev.is_writable = true ∨ ev.is_error = true ∨ ev.is_write_closed = true)) ∧
    (ev.is_error = true → ev.is_writable = true → (eventOfMio ev).writable = true) ∧
    (ev.is_error = true → ev.is_readable = true → (eventOfMio ev).readable = true) := by
  obtain ⟨tok, r, w, e, rc, wc, p⟩ := ev
  simp [eventOfMio]
  tauto

/-- C4 witness: a record with error, readable and writable flags set maps to
an event that is both readable and writable. -/
theorem C4_event_translation_witness :
    (eventOfMio (MioEvent.mk 7 true true true false false false)).writable = true ∧
    (eventOfMio (MioEvent.mk 7 true true true false false false)).readable = true := by
  have h := C4_event_translation (MioEvent.mk 7 true true true false false false)
  exact ⟨h.2.2.1 rfl rfl, h.2.2.2 rfl rfl⟩

/-- C5: `Events::iter` preserves each record's token as the event key, so an
event produced from a reserved-key record carries exactly the reserved key —
it is tagged for the caller — and can never equal any caller-registered key
(callers may not register under the reserved key). -/
theorem C5_reserved_key_tagged (ev : MioEvent) (callerKey : Nat)
    (h : callerKey ≠ NOTIFY_KEY) :
    (eventOfMio ev).key = ev.token ∧
    (ev.token = NOTIFY_KEY → (eventOfMio ev).key ≠ callerKey) := by
  have hk : (eventOfMio ev).key = ev.token := rfl
  refine ⟨hk, ?_⟩
  intro ht hc
  exact h (hc.symm.trans (hk.trans ht))

/-- C5 witness: a reserved-key record's event keeps the reserved key and
differs from the caller key 7. -/
theorem C5_reserved_key_tagged_witness :
    (eventOfMio (MioEvent.mk NOTIFY_KEY true false false false false false)).key =
      NOTIFY_KEY ∧
    (eventOfMio (MioEvent.mk NOTIFY_KEY true false false false false false)).key ≠ 7 := by
  have h := C5_reserved_key_tagged
    (MioEvent.mk NOTIFY_KEY true false false false false false) 7 (by decide)
  exact ⟨h.1, h.2 rfl⟩

/-- C6 counterexample: when the native poll is interrupted (`EINTR`),
`Poller::wait` returns that interruption as an error to the caller rather
than retrying. -/
theorem C6_counterexample :
    waitRun true (Except.ok ()) (Except.ok ()) (Except.error IOErr.eintr) =
      Except.error IOErr.eintr := rfl

/-- C6 (amended): `Poller::wait` performs no internal retry — any error from
the native poll call, the recoverable interruption included, is propagated
unchanged to the caller, and a successful poll outcome is returned as-is. -/
theorem C6_wait_error_propagation (hasTimer : Bool) (e : IOErr) (n : Nat) :
    waitRun hasTimer (Except.ok ()) (Except.ok ()) (Except.error e) =
      Except.error e ∧
    waitRun hasTimer (Except.ok ()) (Except.ok ()) (Except.ok n) = Except.ok n := by
  cases hasTimer <;> exact ⟨rfl, rfl⟩

/-- C7 counterexample: `Poller::new` fails although creation of the polling
handle and of the waker both succeeded — registering the timer fd failed. -/
theorem C7_counterexample :
    newRun (Except.ok ()) (Except.ok ()) (Except.ok ()) (Except.ok ())
      (Except.error (IOErr.other 22)) = Except.error (IOErr.other 22) := rfl

/-- C7 (amended): `Poller::new` fails exactly when polling-handle creation,
waker creation, registry cloning, or — when a timer was created —
registration of the timer fd fails; failure to create the Kernel Timer
itself never fails `new`, and the timer fd is registered with
`Event::none(NOTIFY_KEY)`, i.e. read-interest under the reserved key. -/
theorem C7_new_error_conditions
    (pollNew wakerNew regClone timerNew addTimer : Except IOErr Unit) (eT : IOErr) :
    isErr (newRun pollNew wakerNew regClone timerNew addTimer) =
      (isErr pollNew || isErr wakerNew || isErr regClone ||
        (!isErr timerNew && isErr addTimer)) ∧
    newRun (Except.ok ()) (Except.ok ()) (Except.ok ()) (Except.error eT) addTimer =
      Except.ok false ∧
    newTimerEvent.key = NOTIFY_KEY ∧
    interestOfEvent newTimerEvent = Interest.READABLE := by
  refine ⟨?_, ?_, rfl, rfl⟩
  · cases pollNew <;> cases wakerNew <;> cases regClone <;> cases timerNew <;>
      cases addTimer <;> rfl
  · rfl

/-- C8: the interest derived from an `Event` gives at least write-interest
whenever `writable = true`, and both read- and write-interest when
`readable` and `writable` are both true. -/
theorem C8_interest_from_event (ev : Event) :
    (ev.writable = true → (interestOfEvent ev).write = true) ∧
    (ev.readable = true → ev.writable = true →
      interestOfEvent ev = Interest.add Interest.READABLE Interest.WRITABLE) := by
  obtain ⟨k, r, w⟩ := ev
  cases r <;> cases w <;>
    simp [interestOfEvent, Interest.add, Interest.READABLE, Interest.WRITABLE]

/-- C8 witness: a readable-and-writable event registers both interests. -/
theorem C8_interest_from_event_witness :
    (interestOfEvent (Event.mk 3 true true)).write = true ∧
    interestOfEvent (Event.mk 3 true true) =
      Interest.add Interest.READABLE Interest.WRITABLE := by
  have h := C8_interest_from_event (Event.mk 3 true true)
  exact ⟨h.1 rfl, h.2 rfl rfl⟩

/-- C9: dropping the `Poller` only deregisters the timer fd when one exists
(never closing any fd) and always completes successfully whatever the
deregistration outcome; dropping the `TimerFd` performs exactly one close of
its own fd. -/
theorem C9_teardown (tfd fd : Int) (delRes : Except IOErr Unit) :
    (pollerDrop (some tfd) delRes).2 = Except.ok () ∧
    (pollerDrop none delRes).2 = Except.ok () ∧
    (pollerDrop (some tfd) delRes).1 = [FdAction.deregister tfd] ∧
    ((pollerDrop (some tfd) delRes).1.all fun a => !a.isClose) = true ∧
    ((pollerDrop none delRes).1.all fun a => !a.isClose) = true ∧
    timerFdDrop fd = [FdAction.close fd] ∧
    (timerFdDrop fd).length = 1 := by
  cases delRes <;> simp [pollerDrop, timerFdDrop, FdAction.isClose]

/-- C10: an `Event` with both flags cleared converts to `Interest::READABLE`,
so registering with `Event::none` — as `Poller::new` does for the timer fd —
registers read-interest, not no interest. -/
theorem C10_empty_event_interest (k : Nat) :
    interestOfEvent (Event.mk k false false) = Interest.READABLE ∧
    interestOfEvent (Event.none k) = Interest.READABLE ∧
    newTimerEvent = Event.mk NOTIFY_KEY false false ∧
    interestOfEvent newTimerEvent = Interest.READABLE :=
  ⟨rfl, rfl, rfl, rfl⟩

end Polling
